import Mathlib

/-!
Verification of `beaconclient/prod_beacon_instance.go` (mev-boost-relay).

Shallow embedding of the head-event streaming subsystem and the typed
beacon-endpoint accessors of `ProdBeaconInstance`, together with proofs of
the specified properties.

Conventions of the embedding:
* Go `uint64` values are modelled as `Nat` (with an explicit `< 2^64` bound
  where the Go standard library enforces one, i.e. in decimal parsing).
* Go multiple-return `(ptr, err)` is modelled as `Option R × Option BeaconErr`,
  where `none` in the first component models a `nil` pointer.
* The effect of `fetchBeacon` (repository code outside the embedded file) is
  modelled by an oracle value `FetchOutcome R`: the final contents written
  into the freshly allocated response value, plus the returned error.
* JSON bytes received on the event stream are modelled as `Option Json`:
  `none` stands for bytes that are not well-formed JSON, `some j` for bytes
  parsing to the JSON value `j`.
-/

/-- A JSON value, as produced by parsing the raw bytes of an SSE event. -/
inductive Json where
  | null
  | bool (b : Bool)
  | num (n : Int)
  | str (s : String)
  | arr (elems : List Json)
  | obj (fields : List (String × Json))
deriving Repr

/-- Decimal parsing as Go performs it for a `uint64` field with the
`,string` tag: the quoted content must be a valid JSON number
(`0` or a nonzero digit followed by digits, no sign, no exponent here)
that fits in an unsigned 64-bit integer. -/
def parseUint64Dec (s : String) : Option Nat :=
  let cs := s.data
  if cs ≠ [] ∧ cs.all Char.isDigit ∧ (cs.head? ≠ some '0' ∨ cs.length = 1) then
    let n := cs.foldl (fun acc c => acc * 10 + (c.toNat - 48)) 0
    if n < 2 ^ 64 then some n else none
  else none

/-- Go `HeadEventData` represents the data of a head event
(`Slot uint64` with tag `json:"slot,string"`, `Block string` with tag
`json:"block"`, `State string` with tag `json:"state"`). -/
structure HeadEventData where
  Slot : Nat
  Block : String
  State : String
deriving DecidableEq, Repr

/-- Go `strings.ToLower` restricted to its effect on ASCII data (every string
compared below is ASCII): lower-case each character. Written over the
character list so it evaluates by kernel reduction. -/
def asciiLower (s : String) : String :=
  String.mk (s.data.map Char.toLower)

/-- One step of Go `json.Unmarshal` into `HeadEventData`: process a single
key/value pair of the JSON object. Go matches struct fields by tag,
case-insensitively (all three tags are lower-case, so lower-casing the key
is an exact model); an unknown key is ignored; `null` is a no-op for any
field; a wrongly-typed value records the first error but decoding
continues; the `,string` tag on `Slot` requires a JSON string holding a
decimal number. -/
def applyField (st : HeadEventData × Option String) (kv : String × Json) :
    HeadEventData × Option String :=
  let d := st.1
  let e := st.2
  let key := asciiLower kv.1
  if key = "slot" then
    match kv.2 with
    | Json.str s =>
      match parseUint64Dec s with
      | some n => ({ d with Slot := n }, e)
      | none => (d, e <|> some "json: invalid number literal")
    | Json.null => (d, e)
    | _ => (d, e <|> some "json: invalid use of string struct tag")
  else if key = "block" then
    match kv.2 with
    | Json.str s => ({ d with Block := s }, e)
    | Json.null => (d, e)
    | _ => (d, e <|> some "json: cannot unmarshal value into string field")
  else if key = "state" then
    match kv.2 with
    | Json.str s => ({ d with State := s }, e)
    | Json.null => (d, e)
    | _ => (d, e <|> some "json: cannot unmarshal value into string field")
  else (d, e)

/-- Go `json.Unmarshal(msg.Data, &data)` for `HeadEventData`: unparseable
bytes or a non-object top level fail; otherwise the object's fields are
processed in order starting from the zero value `{0, "", ""}`, and the
first recorded field error (if any) is returned. A missing field is simply
left at its zero value — Go does not report absent fields. -/
def unmarshalHeadEvent (raw : Option Json) : Except String HeadEventData :=
  match raw with
  | none => Except.error "invalid character in JSON input"
  | some (Json.obj fields) =>
    let r := fields.foldl applyField (⟨0, "", ""⟩, none)
    match r.2 with
    | some e => Except.error e
    | none => Except.ok r.1
  | some _ => Except.error "json: cannot unmarshal value into HeadEventData"

/-- The SSE callback passed to `client.SubscribeRaw` in
`SubscribeToHeadEvents`, acting on the delivery state: on decode error the
event is logged (we count log lines) and skipped; on success the event is
sent on `slotC` (the channel is modelled as the list of values sent, in
order, assuming every send is accepted). -/
def handleEvent (st : List HeadEventData × Nat) (msg : Option Json) :
    List HeadEventData × Nat :=
  match unmarshalHeadEvent msg with
  | Except.error _ => (st.1, st.2 + 1)
  | Except.ok d => (st.1 ++ [d], st.2)

/-- The events delivered and errors logged over one connected stream that
emits `msgs`, in order. -/
def subscribeRawRun (msgs : List (Option Json)) : List HeadEventData × Nat :=
  msgs.foldl handleEvent ([], 0)

/-- Observable actions of one iteration of the reconnect loop in
`SubscribeToHeadEvents`. -/
inductive LoopAction where
  | subscribeAttempt
  | logSubscribeError
  | sleepSeconds (n : Nat)
  | logReconnect
deriving DecidableEq, Repr

/-- One iteration of the `for` loop in `SubscribeToHeadEvents`, given the
error value returned by `client.SubscribeRaw` for this attempt:
a subscribe attempt is made; if (and only if) the returned error is
non-nil, the error is logged and the loop sleeps `1 * time.Second`;
the "SubscribeRaw ended, reconnecting" warning is logged unconditionally. -/
def subscribeIteration (err : Option String) : List LoopAction :=
  [LoopAction.subscribeAttempt] ++
    (match err with
     | some _ => [LoopAction.logSubscribeError, LoopAction.sleepSeconds 1]
     | none => []) ++
    [LoopAction.logReconnect]

/-- Whether a loop action is a backoff sleep. -/
def isSleepAction : LoopAction → Bool
  | LoopAction.sleepSeconds _ => true
  | _ => false

/-- The action trace of iteration `n` of the reconnect loop, when attempt
`n` returns `outcomes n` from `SubscribeRaw`. -/
def subscribeLoopTrace (outcomes : Nat → Option String) (n : Nat) :
    List LoopAction :=
  subscribeIteration (outcomes n)

/-- Control decision after one loop iteration. -/
inductive LoopControl where
  | continueLoop
  | exitLoop
deriving DecidableEq, Repr

/-- The control decision taken by the body of the `for` loop in
`SubscribeToHeadEvents`: the body contains no `break` and no `return`
statement, so regardless of the outcome of `SubscribeRaw` the loop
continues. -/
def subscribeLoopControl (_ : Option String) : LoopControl :=
  LoopControl.continueLoop

/-- Whether the reconnect loop reaches iteration `n` (i.e. makes an
`(n+1)`-th connection attempt counts from 0), given the per-attempt
`SubscribeRaw` outcomes. -/
def subscribeLoopReaches (outcomes : Nat → Option String) : Nat → Bool
  | 0 => true
  | n + 1 =>
    subscribeLoopReaches outcomes n &&
      (match subscribeLoopControl (outcomes n) with
       | LoopControl.continueLoop => true
       | LoopControl.exitLoop => false)

/-- Modelled from the spec: the error taxonomy of the Typed Fetch Layer
(`fetchBeacon`, repository code not present in the embedded file):
`TransportError` (connection/network failure), `UpstreamStatusError`
(non-2xx response with status code and body), `DecodeError` (malformed
body). Accessors only propagate these values, so their internal structure
never matters below. -/
inductive BeaconErr where
  | transportErr (msg : String)
  | upstreamStatusErr (code : Nat) (body : String)
  | decodeFailure (msg : String)
deriving DecidableEq, Repr

/-- The effect of one `fetchBeacon(method, uri, payload, resp)` call, as an
oracle: the final contents written into the freshly allocated response
value (possibly partially decoded on failure), and the returned error. -/
structure FetchOutcome (R : Type) where
  resp : R
  err : Option BeaconErr

/-- Go `ValidatorResponseValidatorData` (`Pubkey string`). -/
structure ValidatorResponseValidatorData where
  Pubkey : String
deriving DecidableEq, Repr

/-- Go `ValidatorResponseEntry` (`Index uint64` via `,string`, `Balance string`,
`Status string`, `Validator ValidatorResponseValidatorData`). -/
structure ValidatorResponseEntry where
  Index : Nat
  Balance : String
  Status : String
  Validator : ValidatorResponseValidatorData
deriving DecidableEq, Repr

/-- Go `AllValidatorsResponse` (`Data []ValidatorResponseEntry`). -/
structure AllValidatorsResponse where
  Data : List ValidatorResponseEntry
deriving DecidableEq, Repr

/-- Go `types.NewPubkeyHex` from go-boost-utils (external library): the
normalization of a raw public-key string used as map key, which is
`strings.ToLower` — lower-case hex, keeping the `0x` prefix. -/
def NewPubkeyHex (pk : String) : String :=
  asciiLower pk

/-- A Go `map[string]V` modelled as an association list with unique keys:
assignment `m[k] = v` replaces the value when `k` is present and appends a
new binding otherwise. -/
def mapInsert {V : Type} (m : List (String × V)) (k : String) (v : V) :
    List (String × V) :=
  if m.any (fun p => p.1 = k) then
    m.map (fun p => if p.1 = k then (k, v) else p)
  else
    m ++ [(k, v)]

/-- Go map read `m[k]`. -/
def mapLookup {V : Type} (m : List (String × V)) (k : String) : Option V :=
  (m.find? (fun p => p.1 = k)).map Prod.snd

/-- The keys of a modelled Go map. -/
def mapKeys {V : Type} (m : List (String × V)) : List String :=
  m.map Prod.fst

/-- The loop in `FetchValidators` building `newValidatorSet`:
`for _, vs := range vd.Data { newValidatorSet[types.NewPubkeyHex(vs.Validator.Pubkey)] = vs }`. -/
def buildValidatorSet (entries : List ValidatorResponseEntry) :
    List (String × ValidatorResponseEntry) :=
  entries.foldl
    (fun m vs => mapInsert m (NewPubkeyHex vs.Validator.Pubkey) vs) []

/-- The URI built by `fetchAllValidators`:
`fmt.Sprintf("%s/eth/v1/beacon/states/%d/validators?status=active,pending", endpoint, headSlot)`. -/
def fetchAllValidatorsURI (endpoint : String) (headSlot : Nat) : String :=
  s!"{endpoint}/eth/v1/beacon/states/{headSlot}/validators?status=active,pending"

/-- Go `fetchAllValidators(endpoint, headSlot)`: builds the URI, allocates a
fresh response, calls `fetchBeacon` (the oracle `o`), and returns the
response value (never nil) together with the error. The pair is tagged with
the URI actually requested. -/
def fetchAllValidators (endpoint : String) (headSlot : Nat)
    (o : FetchOutcome AllValidatorsResponse) :
    String × (AllValidatorsResponse × Option BeaconErr) :=
  (fetchAllValidatorsURI endpoint headSlot, (o.resp, o.err))

/-- Go `FetchValidators(headSlot)`: one call to `fetchAllValidators` (attempt
index 0 of the oracle sequence — the second component of the result counts
the fetch calls performed, which is always exactly one, i.e. no retry);
on error, returns `(nil, err)` unchanged; on success, builds the full
mapping. -/
def FetchValidatorsRun (endpoint : String) (headSlot : Nat)
    (outcomes : Nat → FetchOutcome AllValidatorsResponse) :
    (Option (List (String × ValidatorResponseEntry)) × Option BeaconErr) × Nat :=
  let r := (fetchAllValidators endpoint headSlot (outcomes 0)).2
  match r.2 with
  | some e => ((none, some e), 1)
  | none => ((some (buildValidatorSet r.1.Data), none), 1)

/-- Go `SyncStatusPayloadData` (`HeadSlot uint64` via `,string`,
`IsSyncing bool`). -/
structure SyncStatusPayloadData where
  HeadSlot : Nat
  IsSyncing : Bool
deriving DecidableEq, Repr

/-- Go `SyncStatusPayload` (`Data SyncStatusPayloadData`). -/
structure SyncStatusPayload where
  Data : SyncStatusPayloadData
deriving DecidableEq, Repr

/-- Go `SyncStatus()`: GET `<beaconURI>/eth/v1/node/syncing`; on error returns
`(nil, err)`; on success returns a pointer to the payload's `Data`. -/
def SyncStatus (beaconURI : String) (o : FetchOutcome SyncStatusPayload) :
    String × (Option SyncStatusPayloadData × Option BeaconErr) :=
  (beaconURI ++ "/eth/v1/node/syncing",
    match o.err with
    | some e => (none, some e)
    | none => (some o.resp.Data, none))

/-- Go `CurrentSlot()`: calls `SyncStatus`; on error returns `(0, err)`,
otherwise `(syncStatus.HeadSlot, nil)`. The `(none, none)` branch is
unreachable because `SyncStatus` never returns a nil payload with a nil
error. -/
def CurrentSlot (beaconURI : String) (o : FetchOutcome SyncStatusPayload) :
    Nat × Option BeaconErr :=
  match (SyncStatus beaconURI o).2 with
  | (_, some e) => (0, some e)
  | (some d, none) => (d.HeadSlot, none)
  | (none, none) => (0, none)

/-- Go `ProposerDutiesResponseData` (`Pubkey string`, `Slot uint64` via `,string`). -/
structure ProposerDutiesResponseData where
  Pubkey : String
  Slot : Nat
deriving DecidableEq, Repr

/-- Go `ProposerDutiesResponse` (`Data []ProposerDutiesResponseData`). -/
structure ProposerDutiesResponse where
  Data : List ProposerDutiesResponseData
deriving DecidableEq, Repr

/-- Go `GetProposerDuties(epoch)`: builds the URI, allocates `resp`, calls
`fetchBeacon`, and returns `resp, err` — the response pointer is the fresh
allocation, hence never nil, whatever the error. -/
def GetProposerDuties (beaconURI : String) (epoch : Nat)
    (o : FetchOutcome ProposerDutiesResponse) :
    String × (Option ProposerDutiesResponse × Option BeaconErr) :=
  (s!"{beaconURI}/eth/v1/validator/duties/proposer/{epoch}",
    (some o.resp, o.err))

/-- Go `GetHeaderResponseMessage` (`Slot`, `ProposerIndex` via `,string`,
`ParentRoot string`). -/
structure GetHeaderResponseMessage where
  Slot : Nat
  ProposerIndex : Nat
  ParentRoot : String
deriving DecidableEq, Repr

/-- The anonymous `Header` struct inside `GetHeaderResponse.Data`
(`Message *GetHeaderResponseMessage`, a pointer). -/
structure GetHeaderResponseDataHeader where
  Message : Option GetHeaderResponseMessage
deriving DecidableEq, Repr

/-- The anonymous `Data` struct inside `GetHeaderResponse`. -/
structure GetHeaderResponseData where
  Root : String
  Header : GetHeaderResponseDataHeader
deriving DecidableEq, Repr

/-- Go `GetHeaderResponse`. -/
structure GetHeaderResponse where
  Data : GetHeaderResponseData
deriving DecidableEq, Repr

/-- Go `GetHeader()`: latest header; fresh `resp` returned alongside `err`. -/
def GetHeader (beaconURI : String) (o : FetchOutcome GetHeaderResponse) :
    String × (Option GetHeaderResponse × Option BeaconErr) :=
  (s!"{beaconURI}/eth/v1/beacon/headers/head", (some o.resp, o.err))

/-- Go `GetHeaderForSlot(slot)`. -/
def GetHeaderForSlot (beaconURI : String) (slot : Nat)
    (o : FetchOutcome GetHeaderResponse) :
    String × (Option GetHeaderResponse × Option BeaconErr) :=
  (s!"{beaconURI}/eth/v1/beacon/headers/{slot}", (some o.resp, o.err))

/-- Placeholder for the external `types.ExecutionPayload` type
(go-boost-utils); its fields play no role in any claim. -/
def ExecutionPayloadExternal : Type := Unit

/-- Placeholder for the external `capella.Withdrawal` type
(go-eth2-client); its fields play no role in any claim. -/
def WithdrawalExternal : Type := Unit

/-- The anonymous `Body` struct inside `GetBlockResponse.Data.Message`
(`ExecutionPayload types.ExecutionPayload`). -/
structure GetBlockResponseMessageBody where
  ExecutionPayload : ExecutionPayloadExternal

/-- The anonymous `Message` struct inside `GetBlockResponse.Data`. -/
structure GetBlockResponseMessage where
  Slot : Nat
  Body : GetBlockResponseMessageBody

/-- The anonymous `Data` struct inside `GetBlockResponse`. -/
structure GetBlockResponseData where
  Message : GetBlockResponseMessage

/-- Go `GetBlockResponse`. -/
structure GetBlockResponse where
  Data : GetBlockResponseData

/-- Go `GetBlock(blockID)`: `blockID` can be "head" or a slot number. -/
def GetBlock (beaconURI : String) (blockID : String)
    (o : FetchOutcome GetBlockResponse) :
    String × (Option GetBlockResponse × Option BeaconErr) :=
  (s!"{beaconURI}/eth/v2/beacon/blocks/{blockID}", (some o.resp, o.err))

/-- Go `GetBlockForSlot(slot)`. -/
def GetBlockForSlot (beaconURI : String) (slot : Nat)
    (o : FetchOutcome GetBlockResponse) :
    String × (Option GetBlockResponse × Option BeaconErr) :=
  (s!"{beaconURI}/eth/v2/beacon/blocks/{slot}", (some o.resp, o.err))

/-- The anonymous `Data` struct inside `GetGenesisResponse`. -/
structure GetGenesisResponseData where
  GenesisTime : Nat
  GenesisValidatorsRoot : String
  GenesisForkVersion : String
deriving DecidableEq, Repr

/-- Go `GetGenesisResponse`. -/
structure GetGenesisResponse where
  Data : GetGenesisResponseData
deriving DecidableEq, Repr

/-- Go `GetGenesis()`. -/
def GetGenesis (beaconURI : String) (o : FetchOutcome GetGenesisResponse) :
    String × (Option GetGenesisResponse × Option BeaconErr) :=
  (s!"{beaconURI}/eth/v1/beacon/genesis", (some o.resp, o.err))

/-- Go `GetSpecResponse` (spec parameters; numeric `SECONDS_PER_SLOT` via `,string`). -/
structure GetSpecResponse where
  SecondsPerSlot : Nat
  DepositContractAddress : String
  DepositNetworkID : String
  DomainAggregateAndProof : String
  InactivityPenaltyQuotient : String
  InactivityPenaltyQuotientAltair : String
deriving DecidableEq, Repr

/-- Go `GetSpec()`. -/
def GetSpec (beaconURI : String) (o : FetchOutcome GetSpecResponse) :
    String × (Option GetSpecResponse × Option BeaconErr) :=
  (s!"{beaconURI}/eth/v1/config/spec", (some o.resp, o.err))

/-- One entry of `GetForkScheduleResponse.Data`. -/
structure GetForkScheduleResponseData where
  PreviousVersion : String
  CurrentVersion : String
  Epoch : Nat
deriving DecidableEq, Repr

/-- Go `GetForkScheduleResponse`. -/
structure GetForkScheduleResponse where
  Data : List GetForkScheduleResponseData
deriving DecidableEq, Repr

/-- Go `GetForkSchedule()`. -/
def GetForkSchedule (beaconURI : String)
    (o : FetchOutcome GetForkScheduleResponse) :
    String × (Option GetForkScheduleResponse × Option BeaconErr) :=
  (s!"{beaconURI}/eth/v1/config/fork_schedule", (some o.resp, o.err))

/-- The anonymous `Data` struct inside `GetRandaoResponse`. -/
structure GetRandaoResponseData where
  Randao : String
deriving DecidableEq, Repr

/-- Go `GetRandaoResponse`. -/
structure GetRandaoResponse where
  Data : GetRandaoResponseData
deriving DecidableEq, Repr

/-- Go `GetRandao(slot)`. -/
def GetRandao (beaconURI : String) (slot : Nat)
    (o : FetchOutcome GetRandaoResponse) :
    String × (Option GetRandaoResponse × Option BeaconErr) :=
  (s!"{beaconURI}/eth/v1/beacon/states/{slot}/randao", (some o.resp, o.err))

/-- The anonymous `Data` struct inside `GetWithdrawalsResponse`
(`Withdrawals []*capella.Withdrawal`, a slice of pointers). -/
structure GetWithdrawalsResponseData where
  Withdrawals : List (Option WithdrawalExternal)

/-- Go `GetWithdrawalsResponse`. -/
structure GetWithdrawalsResponse where
  Data : GetWithdrawalsResponseData

/-- Go `GetWithdrawals(slot)`. -/
def GetWithdrawals (beaconURI : String) (slot : Nat)
    (o : FetchOutcome GetWithdrawalsResponse) :
    String × (Option GetWithdrawalsResponse × Option BeaconErr) :=
  (s!"{beaconURI}/eth/v1/beacon/states/{slot}/withdrawals", (some o.resp, o.err))

/-- A valid head-event body: `{"slot":"123","block":"0x01","state":"0x02"}`. -/
def headEventJson123 : Json :=
  Json.obj [("slot", Json.str "123"), ("block", Json.str "0x01"),
    ("state", Json.str "0x02")]

/-- A second valid head-event body:
`{"slot":"456","block":"0x03","state":"0x04"}`. -/
def headEventJson456 : Json :=
  Json.obj [("slot", Json.str "456"), ("block", Json.str "0x03"),
    ("state", Json.str "0x04")]

/-- A head-event body missing the `slot` field:
`{"block":"0x01","state":"0x02"}`. -/
def headEventMissingSlot : Json :=
  Json.obj [("block", Json.str "0x01"), ("state", Json.str "0x02")]

/-- A validator entry with raw pubkey `0xAA`. -/
def entryAA : ValidatorResponseEntry :=
  ⟨1, "32000000000", "active_ongoing", ⟨"0xAA"⟩⟩

/-- A validator entry with raw pubkey `0xBB`. -/
def entryBB : ValidatorResponseEntry :=
  ⟨2, "32000000000", "active_ongoing", ⟨"0xBB"⟩⟩

/-- A validator entry whose raw pubkey normalizes to the same key as
`entryAA` (mixed-case `0xAa`), to exhibit last-write-wins. -/
def entryAA2 : ValidatorResponseEntry :=
  ⟨3, "31000000000", "active_exiting", ⟨"0xAa"⟩⟩

/-- Folding the SSE callback from an arbitrary accumulator appends the run
from the empty state: deliveries are appended and log counts added. -/
theorem foldl_handleEvent (msgs : List (Option Json))
    (acc : List HeadEventData × Nat) :
    msgs.foldl handleEvent acc =
      (acc.1 ++ (subscribeRawRun msgs).1, acc.2 + (subscribeRawRun msgs).2) := by
  induction msgs generalizing acc with
  | nil => simp [subscribeRawRun]
  | cons m ms ih =>
    have hrun : subscribeRawRun (m :: ms) =
        ms.foldl handleEvent (handleEvent ([], 0) m) := rfl
    rw [List.foldl_cons, ih, hrun, ih]
    cases h : unmarshalHeadEvent m <;>
      simp [handleEvent, h, List.append_assoc, Nat.add_assoc]

/-- C1: over one connected stream, `SubscribeToHeadEvents` sends on `slotC`
exactly the decodable events of the upstream sequence, in the same relative
order, dropping none (every send accepted). -/
theorem subscribe_delivers_decodable_in_order (msgs : List (Option Json)) :
    (subscribeRawRun msgs).1 =
      msgs.filterMap (fun m => (unmarshalHeadEvent m).toOption) := by
  induction msgs with
  | nil => rfl
  | cons m ms ih =>
    have hrun : subscribeRawRun (m :: ms) =
        ms.foldl handleEvent (handleEvent ([], 0) m) := rfl
    rw [hrun, foldl_handleEvent]
    cases h : unmarshalHeadEvent m <;>
      simp [handleEvent, h, Except.toOption, ih]

/-- C2: an event whose data fails JSON decoding is logged and skipped:
nothing is sent on `slotC` for it, one error line is logged, and every
decodable event before and after it is still delivered in order (the
callback cannot end the connection, so the stream keeps running). -/
theorem subscribe_skips_malformed (pre post : List (Option Json))
    (bad : Option Json) (h : (unmarshalHeadEvent bad).toOption = none) :
    (subscribeRawRun (pre ++ bad :: post)).1 =
        (subscribeRawRun pre).1 ++ (subscribeRawRun post).1
    ∧ (subscribeRawRun (pre ++ bad :: post)).2 =
        (subscribeRawRun pre).2 + 1 + (subscribeRawRun post).2 := by
  obtain ⟨e, he⟩ : ∃ e, unmarshalHeadEvent bad = Except.error e := by
    cases hh : unmarshalHeadEvent bad with
    | error e => exact ⟨e, rfl⟩
    | ok d => rw [hh] at h; simp [Except.toOption] at h
  have h1 : subscribeRawRun (pre ++ bad :: post) =
      post.foldl handleEvent (handleEvent (subscribeRawRun pre) bad) := by
    show (pre ++ bad :: post).foldl handleEvent ([], 0) = _
    rw [List.foldl_append, List.foldl_cons]; rfl
  have h2 : handleEvent (subscribeRawRun pre) bad =
      ((subscribeRawRun pre).1, (subscribeRawRun pre).2 + 1) := by
    simp [handleEvent, he]
  rw [h1, h2, foldl_handleEvent]
  exact ⟨rfl, rfl⟩

/-- Witness for C2: in the stream `[valid 123, malformed bytes, valid 456]`
the malformed event is skipped and both valid events are delivered. -/
theorem subscribe_skips_malformed_witness :
    (subscribeRawRun [some headEventJson123, none, some headEventJson456]).1 =
        (subscribeRawRun [some headEventJson123]).1 ++
          (subscribeRawRun [some headEventJson456]).1
    ∧ (subscribeRawRun [some headEventJson123, none, some headEventJson456]).1 =
        [⟨123, "0x01", "0x02"⟩, ⟨456, "0x03", "0x04"⟩] :=
  ⟨(subscribe_skips_malformed [some headEventJson123] [some headEventJson456]
      none rfl).1, rfl⟩

/-- Counterexample to C3 as stated: when `SubscribeRaw` returns a nil error
(the established stream closed without error), the loop iteration contains
no sleep at all, yet the next attempt (iteration 1) is still reached — so
no backoff is observed between these two consecutive attempts. -/
theorem subscribe_backoff_counterexample :
    subscribeLoopTrace (fun _ => none) 0 =
        [LoopAction.subscribeAttempt, LoopAction.logReconnect]
    ∧ (subscribeLoopTrace (fun _ => none) 0).filter isSleepAction = []
    ∧ subscribeLoopReaches (fun _ => none) 1 = true :=
  ⟨rfl, rfl, rfl⟩

/-- C3 (amended): the loop sleeps exactly one fixed 1-second backoff in an
iteration if and only if that iteration's `SubscribeRaw` call returned an
error; when `SubscribeRaw` returns nil the loop re-subscribes immediately
with no backoff. -/
theorem subscribe_backoff_only_on_error (e : Option String) :
    (subscribeIteration e).filter isSleepAction =
      (if e.isSome then [LoopAction.sleepSeconds 1] else []) := by
  cases e <;> rfl

/-- The reconnect loop reaches every iteration index, whatever the
per-attempt outcomes. -/
theorem subscribeLoopReaches_true (outcomes : Nat → Option String) :
    ∀ n, subscribeLoopReaches outcomes n = true
  | 0 => rfl
  | n + 1 => by
    rw [subscribeLoopReaches, subscribeLoopReaches_true outcomes n]
    rfl

/-- C4: the reconnect loop never terminates of its own accord: the loop
body always decides to continue (it has no terminal state), so after any
number `N` of consecutive failures the `(N+1)`-th attempt is performed. -/
theorem subscribe_loop_never_terminates (outcomes : Nat → Option String)
    (N : Nat) :
    subscribeLoopControl (outcomes N) = LoopControl.continueLoop
    ∧ subscribeLoopReaches outcomes (N + 1) = true :=
  ⟨rfl, subscribeLoopReaches_true outcomes (N + 1)⟩

/-- Keys after a Go map assignment: unchanged when the key was present,
extended by the key otherwise. -/
theorem mapKeys_mapInsert {V : Type} (m : List (String × V)) (k : String)
    (v : V) :
    mapKeys (mapInsert m k v) =
      if m.any (fun p => p.1 = k) then mapKeys m else mapKeys m ++ [k] := by
  unfold mapInsert mapKeys
  split
  · rw [List.map_map]
    refine List.map_congr_left ?_
    intro p _
    by_cases h : p.1 = k <;> simp [h]
  · simp

/-- A Go map assignment preserves key uniqueness. -/
theorem mapKeys_nodup_mapInsert {V : Type} (m : List (String × V))
    (k : String) (v : V) (h : (mapKeys m).Nodup) :
    (mapKeys (mapInsert m k v)).Nodup := by
  rw [mapKeys_mapInsert]
  split
  · exact h
  · rename_i hany
    refine List.Nodup.append h (List.nodup_singleton k) ?_
    intro a ha hk
    rw [List.mem_singleton] at hk
    subst hk
    rw [Bool.not_eq_true, List.any_eq_false] at hany
    obtain ⟨p, hp, hpk⟩ := List.mem_map.mp ha
    exact absurd (by simpa using hpk) (by simpa using hany p hp)

/-- Membership in the keys after a Go map assignment. -/
theorem mem_mapKeys_mapInsert {V : Type} (m : List (String × V)) (k : String)
    (v : V) (x : String) :
    x ∈ mapKeys (mapInsert m k v) ↔ x = k ∨ x ∈ mapKeys m := by
  rw [mapKeys_mapInsert]
  split
  · rename_i hany
    rw [List.any_eq_true] at hany
    obtain ⟨p, hp, hpk⟩ := hany
    constructor
    · exact Or.inr
    · rintro (rfl | hx)
      · exact List.mem_map.mpr ⟨p, hp, by simpa using hpk⟩
      · exact hx
  · simp [or_comm]

/-- Looking up the assigned key after a Go map assignment finds the new
value. -/
theorem mapLookup_mapInsert_self {V : Type} (m : List (String × V))
    (k : String) (v : V) :
    mapLookup (mapInsert m k v) k = some v := by
  unfold mapInsert mapLookup
  split
  · rename_i hany
    induction m with
    | nil => simp at hany
    | cons p m ih =>
      by_cases h : p.1 = k
      · simp [List.find?_cons, h]
      · rw [List.any_cons] at hany
        have hm : m.any (fun p => p.1 = k) = true := by
          rcases Bool.or_eq_true_iff.mp hany with h1 | h1
          · exact absurd (by simpa using h1) h
          · exact h1
        simpa [List.find?_cons, h] using ih hm
  · rw [List.find?_append]
    have hnone : m.find? (fun p => decide (p.1 = k)) = none := by
      rename_i hany
      rw [Bool.not_eq_true, List.any_eq_false] at hany
      rw [List.find?_eq_none]
      intro p hp
      simpa using hany p hp
    simp [hnone, List.find?_cons]

/-- Replacing the bindings of key `k` leaves a search for a different key
`x` unchanged. -/
theorem find?_map_replace {V : Type} (m : List (String × V)) (k : String)
    (v : V) (x : String) (h : x ≠ k) :
    (m.map (fun p => if p.1 = k then (k, v) else p)).find?
        (fun p => p.1 = x) =
      m.find? (fun p => p.1 = x) := by
  induction m with
  | nil => rfl
  | cons p m ih =>
    by_cases hp : p.1 = k
    · have hpx : ¬ p.1 = x := by rw [hp]; exact fun hkx => h hkx.symm
      have hkx : ¬ ((k, v).1 = x) := fun hkx => h hkx.symm
      simp only [List.map_cons, List.find?_cons, if_pos hp,
        decide_eq_false hpx, decide_eq_false hkx]
      exact ih
    · simp only [List.map_cons, List.find?_cons, if_neg hp]
      cases hd : decide (p.1 = x)
      · simp only [hd]; exact ih
      · simp only [hd]

/-- Looking up a different key after a Go map assignment is unchanged. -/
theorem mapLookup_mapInsert_ne {V : Type} (m : List (String × V))
    (k : String) (v : V) (x : String) (h : x ≠ k) :
    mapLookup (mapInsert m k v) x = mapLookup m x := by
  unfold mapInsert mapLookup
  split
  · rw [find?_map_replace m k v x h]
  · rw [List.find?_append]
    have e1 : List.find? (fun p => decide (p.1 = x)) [(k, v)] = none := by
      have hd : (decide ((k, v).1 = x)) = false :=
        decide_eq_false (fun hkx => h hkx.symm)
      simp only [List.find?_cons, hd, List.find?_nil]
    rw [e1]
    cases m.find? (fun p => decide (p.1 = x)) <;> rfl

/-- The `FetchValidators` build loop preserves key uniqueness from any
starting map. -/
theorem mapKeys_nodup_buildAux (l : List ValidatorResponseEntry) :
    ∀ m, (mapKeys m).Nodup →
      (mapKeys (l.foldl
        (fun m vs => mapInsert m (NewPubkeyHex vs.Validator.Pubkey) vs)
        m)).Nodup := by
  induction l with
  | nil => exact fun m hm => hm
  | cons e l ih => exact fun m hm => ih _ (mapKeys_nodup_mapInsert _ _ _ hm)

/-- Key membership for the `FetchValidators` build loop from any starting
map. -/
theorem mem_mapKeys_buildAux (l : List ValidatorResponseEntry) (x : String) :
    ∀ m, x ∈ mapKeys (l.foldl
        (fun m vs => mapInsert m (NewPubkeyHex vs.Validator.Pubkey) vs) m) ↔
      x ∈ mapKeys m ∨ ∃ e ∈ l, NewPubkeyHex e.Validator.Pubkey = x := by
  induction l with
  | nil => intro m; simp
  | cons e l ih =>
    intro m
    rw [List.foldl_cons, ih, mem_mapKeys_mapInsert]
    constructor
    · rintro ((rfl | hx) | ⟨f, hf, hx⟩)
      · exact Or.inr ⟨e, List.mem_cons_self e l, rfl⟩
      · exact Or.inl hx
      · exact Or.inr ⟨f, List.mem_cons_of_mem e hf, hx⟩
    · rintro (hx | ⟨f, hf, hx⟩)
      · exact Or.inl (Or.inr hx)
      · rcases List.mem_cons.mp hf with rfl | hf
        · exact Or.inl (Or.inl hx.symm)
        · exact Or.inr ⟨f, hf, hx⟩

/-- Lookup after the `FetchValidators` build loop: the last entry of the
response whose normalized pubkey equals the key wins, falling back to the
starting map. -/
theorem mapLookup_buildAux (l : List ValidatorResponseEntry) (x : String) :
    ∀ m, mapLookup (l.foldl
        (fun m vs => mapInsert m (NewPubkeyHex vs.Validator.Pubkey) vs) m) x =
      (l.reverse.find?
        (fun e => NewPubkeyHex e.Validator.Pubkey = x)).or (mapLookup m x) := by
  induction l with
  | nil => intro m; rfl
  | cons e l ih =>
    intro m
    rw [List.foldl_cons, ih, List.reverse_cons, List.find?_append]
    cases hl : l.reverse.find?
        (fun e => decide (NewPubkeyHex e.Validator.Pubkey = x)) with
    | some v => rfl
    | none =>
      show mapLookup (mapInsert m (NewPubkeyHex e.Validator.Pubkey) e) x = _
      by_cases hp : NewPubkeyHex e.Validator.Pubkey = x
      · have h1 : mapLookup (mapInsert m (NewPubkeyHex e.Validator.Pubkey) e)
            x = some e := by
          rw [← hp]; exact mapLookup_mapInsert_self m _ e
        have he : List.find?
            (fun e => decide (NewPubkeyHex e.Validator.Pubkey = x)) [e] =
            some e := by
          simp only [List.find?_cons, decide_eq_true hp]
        rw [h1, he]
        rfl
      · have he : List.find?
            (fun e => decide (NewPubkeyHex e.Validator.Pubkey = x)) [e] =
            none := by
          simp only [List.find?_cons, decide_eq_false hp, List.find?_nil]
        rw [mapLookup_mapInsert_ne m _ e x (fun hx => hp hx.symm), he]
        rfl

/-- C5: for every upstream validator response, the mapping built by
`FetchValidators` has no duplicate keys, its key set is exactly the set of
normalized (lower-cased) pubkeys of the response entries, and the value at
a key is the last response entry with that normalized pubkey (last write
wins); on the `0xAA`/`0xBB` response the keys are exactly
`0xaa` and `0xbb` (size 2), and on a duplicate-key response the later
entry wins. -/
theorem FetchValidators_key_set_exact (resp : AllValidatorsResponse) :
    (mapKeys (buildValidatorSet resp.Data)).Nodup
    ∧ (∀ k, k ∈ mapKeys (buildValidatorSet resp.Data) ↔
        ∃ e ∈ resp.Data, NewPubkeyHex e.Validator.Pubkey = k)
    ∧ (∀ k, mapLookup (buildValidatorSet resp.Data) k =
        resp.Data.reverse.find?
          (fun e => NewPubkeyHex e.Validator.Pubkey = k))
    ∧ mapKeys (buildValidatorSet [entryAA, entryBB]) = ["0xaa", "0xbb"]
    ∧ mapLookup (buildValidatorSet [entryAA, entryAA2]) "0xaa" = some entryAA2 := by
  refine ⟨?_, ?_, ?_, by decide, by decide⟩
  · exact mapKeys_nodup_buildAux resp.Data [] List.nodup_nil
  · intro k
    rw [buildValidatorSet, mem_mapKeys_buildAux]
    simp [mapKeys]
  · intro k
    rw [buildValidatorSet, mapLookup_buildAux]
    cases resp.Data.reverse.find?
        (fun e => decide (NewPubkeyHex e.Validator.Pubkey = k)) <;> rfl

/-- Counterexample to C6 as stated: a body missing the `slot` field does
not yield a decode error — Go leaves absent fields at their zero value, so
decoding succeeds with `Slot = 0`. -/
theorem headEvent_missing_slot_decodes_ok :
    unmarshalHeadEvent (some headEventMissingSlot) =
      Except.ok ⟨0, "0x01", "0x02"⟩ := rfl

/-- C6 (amended): `{"slot":"123","block":"0x01","state":"0x02"}` decodes to
`HeadEventData{123, "0x01", "0x02"}` (decimal-string slot parsed to an
unsigned 64-bit integer); unparseable bytes and a wrongly-typed `slot`
yield a decode error, never a panic; but a body merely missing `slot`
decodes successfully with `Slot = 0`. -/
theorem headEvent_decode_contract :
    unmarshalHeadEvent (some headEventJson123) =
        Except.ok ⟨123, "0x01", "0x02"⟩
    ∧ unmarshalHeadEvent (some headEventMissingSlot) =
        Except.ok ⟨0, "0x01", "0x02"⟩
    ∧ unmarshalHeadEvent none =
        Except.error "invalid character in JSON input"
    ∧ unmarshalHeadEvent (some (Json.obj [("slot", Json.num 123)])) =
        Except.error "json: invalid use of string struct tag" :=
  ⟨rfl, rfl, rfl, rfl⟩

/-- C7: when the underlying fetch fails, `FetchValidators` returns that
error unchanged together with a nil map, performs exactly one fetch call
(no retry), and builds no partial mapping. -/
theorem FetchValidators_propagates_fetch_error (endpoint : String)
    (headSlot : Nat) (outcomes : Nat → FetchOutcome AllValidatorsResponse)
    (e : BeaconErr) (h : (outcomes 0).err = some e) :
    FetchValidatorsRun endpoint headSlot outcomes = ((none, some e), 1) := by
  simp [FetchValidatorsRun, fetchAllValidators, h]

/-- Witness for C7: a concrete transport failure is propagated unchanged,
with a nil map and a single fetch call. -/
theorem FetchValidators_propagates_fetch_error_witness :
    FetchValidatorsRun "http://localhost:3500" 42
        (fun _ => ⟨⟨[]⟩, some (BeaconErr.transportErr "connection refused")⟩) =
      ((none, some (BeaconErr.transportErr "connection refused")), 1) :=
  FetchValidators_propagates_fetch_error "http://localhost:3500" 42 _ _ rfl

/-- C8: `CurrentSlot` is derived from `SyncStatus`: a successful sync
status with head slot `h` yields `(h, nil)`, and a failed sync status
yields `(0, err)` with the error propagated unchanged. -/
theorem CurrentSlot_derived_from_SyncStatus (beaconURI : String)
    (o : FetchOutcome SyncStatusPayload) :
    (∀ d, (SyncStatus beaconURI o).2 = (some d, none) →
        CurrentSlot beaconURI o = (d.HeadSlot, none))
    ∧ (∀ e, (SyncStatus beaconURI o).2 = (none, some e) →
        CurrentSlot beaconURI o = (0, some e)) := by
  constructor
  · intro d hd
    rw [CurrentSlot, hd]
  · intro e he
    rw [CurrentSlot, he]

/-- Witness for C8: a concrete successful sync status at head slot 7, and a
concrete 503 failure propagated unchanged. -/
theorem CurrentSlot_derived_witness :
    CurrentSlot "http://localhost:3500" ⟨⟨⟨7, false⟩⟩, none⟩ = (7, none)
    ∧ CurrentSlot "http://localhost:3500"
        ⟨⟨⟨7, false⟩⟩, some (BeaconErr.upstreamStatusErr 503 "busy")⟩ =
      (0, some (BeaconErr.upstreamStatusErr 503 "busy")) :=
  ⟨(CurrentSlot_derived_from_SyncStatus "http://localhost:3500" _).1
      ⟨7, false⟩ rfl,
   (CurrentSlot_derived_from_SyncStatus "http://localhost:3500" _).2
      _ rfl⟩

/-- C9: the validator fetch issued by `FetchValidators` requests exactly
the active/pending validators at the given head slot: the URI is the base
endpoint followed by `/eth/v1/beacon/states/<slot>/validators` with query
`status=active,pending`, the slot rendered in decimal. -/
theorem fetchAllValidators_requests_uri (endpoint : String) (headSlot : Nat)
    (o : FetchOutcome AllValidatorsResponse) :
    (fetchAllValidators endpoint headSlot o).1 =
        endpoint ++ "/eth/v1/beacon/states/" ++ Nat.repr headSlot ++
          "/validators?status=active,pending"
    ∧ (fetchAllValidators "http://localhost:3500" 123 o).1 =
        "http://localhost:3500/eth/v1/beacon/states/123/validators?status=active,pending" := by
  constructor
  · show fetchAllValidatorsURI endpoint headSlot = _
    rw [fetchAllValidatorsURI]
    simp [toString, String.append_assoc]
  · rfl

/-- C10: every typed accessor other than `SyncStatus` and `FetchValidators`
returns its freshly allocated response value even when an error is
returned — the caller never receives a nil response pointer alongside the
error — whereas `SyncStatus` and `FetchValidators` return nil exactly on
failure. -/
theorem accessors_return_nonnil_response (beaconURI : String) :
    (∀ epoch o, ((GetProposerDuties beaconURI epoch o).2.1).isSome = true)
    ∧ (∀ o, ((GetHeader beaconURI o).2.1).isSome = true)
    ∧ (∀ slot o, ((GetHeaderForSlot beaconURI slot o).2.1).isSome = true)
    ∧ (∀ blockID o, ((GetBlock beaconURI blockID o).2.1).isSome = true)
    ∧ (∀ slot o, ((GetBlockForSlot beaconURI slot o).2.1).isSome = true)
    ∧ (∀ o, ((GetGenesis beaconURI o).2.1).isSome = true)
    ∧ (∀ o, ((GetSpec beaconURI o).2.1).isSome = true)
    ∧ (∀ o, ((GetForkSchedule beaconURI o).2.1).isSome = true)
    ∧ (∀ slot o, ((GetRandao beaconURI slot o).2.1).isSome = true)
    ∧ (∀ slot o, ((GetWithdrawals beaconURI slot o).2.1).isSome = true)
    ∧ (∀ o, ((SyncStatus beaconURI o).2.1).isSome = o.err.isNone)
    ∧ (∀ headSlot outcomes,
        ((FetchValidatorsRun beaconURI headSlot outcomes).1.1).isSome =
          ((outcomes 0).err).isNone) := by
  refine ⟨fun _ _ => rfl, fun _ => rfl, fun _ _ => rfl, fun _ _ => rfl,
    fun _ _ => rfl, fun _ => rfl, fun _ => rfl, fun _ => rfl, fun _ _ => rfl,
    fun _ _ => rfl, ?_, ?_⟩
  · intro o
    cases h : o.err <;> simp [SyncStatus, h]
  · intro headSlot outcomes
    cases h : (outcomes 0).err <;>
      simp [FetchValidatorsRun, fetchAllValidators, h]
